import Mathlib

/-
Verification of the order checkout / cancellation workflow of the
resin-art e-commerce backend (Express + Prisma controllers).

The relational state is embedded shallowly: each Prisma table relevant to
the checkout workflow becomes a list of rows inside a `DB` record, and each
controller handler becomes a pure function `DB → ... → Except ApiError ...`
returning the post-state on success.  Database transactions are modelled by
the handler returning the fully-updated `DB` only on success (all-or-nothing
by construction); an `Except.error` result leaves the state untouched, which
is exactly the rollback semantics the code obtains from `prisma.$transaction`.
Monetary values (`DECIMAL(10,2)` columns, JS numbers) are modelled as `Rat`;
wall-clock instants are abstract `Nat` parameters (`now`, `year`).
Best-effort e-mail side effects after the transaction are not modelled:
the code catches and logs their failures without affecting the response.
-/

namespace ResinArt

/-- Product row (table `products`): `stock` is an SQL INTEGER, `price` and
`discountPrice` are DECIMAL(10,2) (the latter nullable), `images` a JSON
array of URLs. -/
structure Product where
  id : Nat
  name : String
  price : Rat
  discountPrice : Option Rat
  stock : Int
  isActive : Bool
  images : List String
deriving Repr, DecidableEq

/-- Cart row (table `carts`). -/
structure Cart where
  id : Nat
  userId : Nat
  isActive : Bool
deriving Repr, DecidableEq

/-- Cart item row (table `cart_items`). -/
structure CartItem where
  id : Nat
  cartId : Nat
  productId : Nat
  quantity : Nat
  priceAtTime : Rat
  customization : Option String
deriving Repr, DecidableEq

/-- Order item row (table `order_items`), as built by `createOrder`:
name, image and unit price are copied from the product at checkout time. -/
structure OrderItem where
  productId : Nat
  quantity : Nat
  unitPrice : Rat
  totalPrice : Rat
  productName : String
  productImage : Option String
  customization : Option String
deriving Repr, DecidableEq

/-- Order row (table `orders`); `status` is kept as the string Prisma hands
to JS for its ENUM column, `createdAtYear` abstracts the `created_at`
timestamp to the granularity `generateOrderNumber` queries it at. -/
structure Order where
  id : Nat
  orderNumber : String
  userId : Nat
  status : String
  subtotal : Rat
  shippingCost : Rat
  taxAmount : Rat
  totalAmount : Rat
  shippingAddress : String
  shippingPhone : String
  notes : Option String
  items : List OrderItem
  createdAtYear : Nat
  cancelledAt : Option Nat
  cancelReason : Option String
  confirmedAt : Option Nat
  shippedAt : Option Nat
  deliveredAt : Option Nat
deriving Repr, DecidableEq

/-- Tracking event row (table `order_tracking`), append-only. -/
structure TrackingEvent where
  orderId : Nat
  status : String
  description : String
  updatedBy : Option Nat
deriving Repr, DecidableEq

/-- Delivery row (table `deliveries`), upserted by `updateOrderStatus`. -/
structure Delivery where
  orderId : Nat
  status : String
  trackingNumber : Option String
  courierCompany : Option String
  address : String
  city : String
  country : String
  actualDelivery : Option Nat
deriving Repr, DecidableEq

/-- The database state: one list per table, plus the AUTO_INCREMENT
counters for the ids the handlers mint. -/
structure DB where
  products : List Product
  carts : List Cart
  cartItems : List CartItem
  orders : List Order
  tracking : List TrackingEvent
  deliveries : List Delivery
  nextCartId : Nat
  nextOrderId : Nat
deriving Repr, DecidableEq

/-- The authenticated requester (`req.user` after the auth middleware). -/
structure User where
  id : Nat
  role : String
deriving Repr, DecidableEq

/-- An error surfaced by a handler: `res.status(code)` + thrown message. -/
structure ApiError where
  status : Nat
  msg : String
deriving Repr, DecidableEq

/-- JS truthiness of an optional string: `null`/`undefined` and the empty
string are falsy. -/
def truthyOptStr : Option String → Bool
  | none => false
  | some s => s != ""

/-- JS `s || d` for an optional string `s` and default `d`. -/
def jsOrStr (s : Option String) (d : String) : String :=
  match s with
  | none => d
  | some t => if t = "" then d else t

/-- JS `notes || null`: an empty string is normalised to null. -/
def jsOrNull (s : Option String) : Option String :=
  if truthyOptStr s then s else none

/-- The price preference `product.discountPrice || product.price`: the
column is a nullable DECIMAL(10,2), which the ORM hands to JS as a
Decimal object, and an object is truthy even when it represents 0 - so
only a null discount falls back to the list price; a set zero discount
is used as-is. -/
def unitPriceJS (p : Product) : Rat :=
  match p.discountPrice with
  | none => p.price
  | some d => d

/-- Row lookup `prisma.product.findUnique({ where: { id } })`. -/
def findProduct (db : DB) (pid : Nat) : Option Product :=
  db.products.find? (fun p => p.id == pid)

/-- The `prisma.cart.findFirst({ where: { userId, isActive: true } })`
query shared by `createOrder` and `getOrCreateCart`. -/
def activeCartOf (db : DB) (userId : Nat) : Option Cart :=
  db.carts.find? (fun c => c.userId == userId && c.isActive)

/-- The `include: { items: ... }` join: all cart-item rows of a cart. -/
def itemsOfCart (db : DB) (cartId : Nat) : List CartItem :=
  db.cartItems.filter (fun ci => ci.cartId == cartId)

/-- One `tx.product.update({ data: { stock: { decrement: q } } })`. -/
def decrementStock (ps : List Product) (pid q : Nat) : List Product :=
  ps.map (fun p => if p.id == pid then { p with stock := p.stock - (q : Int) } else p)

/-- One `tx.product.update({ data: { stock: { increment: q } } })`. -/
def incrementStock (ps : List Product) (pid q : Nat) : List Product :=
  ps.map (fun p => if p.id == pid then { p with stock := p.stock + (q : Int) } else p)

/-- JS `String.padStart(n, c)`. -/
def padStart (n : Nat) (c : Char) (s : String) : String :=
  if n ≤ s.length then s else String.mk (List.replicate (n - s.length) c) ++ s

/-- Helper `generateOrderNumber`: counts the orders created since Jan 1 of
the current year and formats `RA-YYYY-XXXXXX` with a six-wide zero-padded
counter.  The count runs on the current state, outside any transaction. -/
def generateOrderNumber (db : DB) (year : Nat) : String :=
  let count := db.orders.countP (fun o => year ≤ o.createdAtYear)
  "RA-" ++ toString year ++ "-" ++ padStart 6 '0' (toString (count + 1))

/-- Error message for an insufficient-stock line. -/
def insufficientStockMsg (p : Product) : String :=
  "Insufficient stock for " ++ p.name ++ ". Only " ++ toString p.stock ++ " available."

/-- The validation / pricing loop of `createOrder` (`for (const item of
cart.items)`): rejects an inactive product or an over-stock quantity,
otherwise accumulates the subtotal and the order-item snapshots. -/
def buildOrderItems (db : DB) : List CartItem → Except ApiError (Rat × List OrderItem)
  | [] => .ok (0, [])
  | it :: rest =>
    match findProduct db it.productId with
    | none => .error ⟨500, "Cart item references a missing product"⟩
    | some p =>
      if !p.isActive then
        .error ⟨400, p.name ++ " is no longer available"⟩
      else if p.stock < (it.quantity : Int) then
        .error ⟨400, insufficientStockMsg p⟩
      else
        let unitPrice := unitPriceJS p
        let totalPrice := unitPrice * (it.quantity : Rat)
        match buildOrderItems db rest with
        | .error e => .error e
        | .ok (sub, oitems) =>
          .ok (totalPrice + sub,
            { productId := it.productId
              quantity := it.quantity
              unitPrice := unitPrice
              totalPrice := totalPrice
              productName := p.name
              productImage := p.images.head?
              customization := it.customization } :: oitems)

/-- Handler `createOrder` (`POST /api/orders`): validates the request and
the cart, computes totals, generates the order number on the pre-state,
then in one transaction inserts the order with its items, decrements each
product's stock, appends the initial tracking event, deletes the cart's
item rows and finally the cart row. -/
def createOrder (db : DB) (user : User) (year : Nat)
    (shippingAddress shippingPhone : String) (notes : Option String) :
    Except ApiError (DB × Order) :=
  if shippingAddress = "" ∨ shippingPhone = "" then
    .error ⟨400, "Please provide shipping address and phone number"⟩
  else
    match activeCartOf db user.id with
    | none => .error ⟨400, "Your cart is empty"⟩
    | some cart =>
      let items := itemsOfCart db cart.id
      if items.isEmpty then
        .error ⟨400, "Your cart is empty"⟩
      else
        match buildOrderItems db items with
        | .error e => .error e
        | .ok (subtotal, orderItems) =>
          let shippingCost : Rat := if 5000 ≤ subtotal then 0 else 200
          let taxAmount : Rat := 0
          let totalAmount : Rat := subtotal + shippingCost + taxAmount
          let orderNumber := generateOrderNumber db year
          let order : Order :=
            { id := db.nextOrderId
              orderNumber := orderNumber
              userId := user.id
              status := "PENDING"
              subtotal := subtotal
              shippingCost := shippingCost
              taxAmount := taxAmount
              totalAmount := totalAmount
              shippingAddress := shippingAddress
              shippingPhone := shippingPhone
              notes := jsOrNull notes
              items := orderItems
              createdAtYear := year
              cancelledAt := none
              cancelReason := none
              confirmedAt := none
              shippedAt := none
              deliveredAt := none }
          let db2 : DB :=
            { db with
              orders := db.orders ++ [order]
              products := items.foldl
                (fun ps it => decrementStock ps it.productId it.quantity) db.products
              tracking := db.tracking ++
                [⟨order.id, "Order Placed", "Your order has been placed successfully", none⟩]
              cartItems := db.cartItems.filter (fun ci => !(ci.cartId == cart.id))
              carts := db.carts.filter (fun c => !(c.id == cart.id))
              nextOrderId := db.nextOrderId + 1 }
          .ok (db2, order)

/-- Helper `getOrCreateCart` of the cart controller: returns the user's
active cart, creating a fresh empty one when none exists. -/
def getOrCreateCart (db : DB) (userId : Nat) : DB × Cart :=
  match activeCartOf db userId with
  | some c => (db, c)
  | none =>
    let c : Cart := ⟨db.nextCartId, userId, true⟩
    ({ db with carts := db.carts ++ [c], nextCartId := db.nextCartId + 1 }, c)

/-- One line of the `getCart` response: `currentPrice` re-applies the
discount-or-list-price preference to the live product row. -/
structure CartItemView where
  quantity : Nat
  currentPrice : Rat
  itemTotal : Rat
  inStock : Bool
deriving Repr, DecidableEq

/-- The per-item shaping inside `getCart` (`cartWithItems.items.map`). -/
def cartItemView (db : DB) (ci : CartItem) : Option CartItemView :=
  (findProduct db ci.productId).map (fun p =>
    { quantity := ci.quantity
      currentPrice := unitPriceJS p
      itemTotal := unitPriceJS p * (ci.quantity : Rat)
      inStock := (ci.quantity : Int) ≤ p.stock })

/-- The cart summary `getCart` responds with. -/
structure CartView where
  cartId : Nat
  items : List CartItemView
deriving Repr, DecidableEq

/-- Handler `getCart` (`GET /api/cart`): gets or creates the active cart
and shapes its items with live prices. -/
def getCart (db : DB) (userId : Nat) : DB × CartView :=
  let (db1, cart) := getOrCreateCart db userId
  (db1, { cartId := cart.id
          items := (itemsOfCart db1 cart.id).filterMap (cartItemView db1) })

/-- Handler `cancelOrder` (`PUT /api/orders/:id/cancel`): authorization and
status guards, then one transaction marking the order cancelled, restoring
each line's stock, and appending a tracking event. -/
def cancelOrder (db : DB) (user : User) (now : Nat) (orderId : Nat)
    (reason : Option String) : Except ApiError DB :=
  match db.orders.find? (fun o => o.id == orderId) with
  | none => .error ⟨404, "Order not found"⟩
  | some order =>
    let isAdmin := user.role == "ADMIN"
    let isOwner := order.userId == user.id
    if !isAdmin && !isOwner then
      .error ⟨403, "Not authorized to cancel this order"⟩
    else if !isAdmin && !(["PENDING", "CONFIRMED"].contains order.status) then
      .error ⟨400, "Order cannot be cancelled at this stage. Please contact support."⟩
    else if isAdmin && !isOwner && !(truthyOptStr reason) then
      .error ⟨400, "Admin must provide a reason for cancellation"⟩
    else
      .ok { db with
        orders := db.orders.map (fun o =>
          if o.id == orderId then
            { o with status := "CANCELLED"
                     cancelledAt := some now
                     cancelReason := some (jsOrStr reason "Cancelled by customer") }
          else o)
        products := order.items.foldl
          (fun ps it => incrementStock ps it.productId it.quantity) db.products
        tracking := db.tracking ++
          [⟨orderId, "Cancelled", jsOrStr reason "Order cancelled by customer", some user.id⟩] }

/-- JS `toUpperCase` on the ASCII status strings this API deals in
(executable, unlike the library uppercase on this toolchain). -/
def toUpperStr (s : String) : String :=
  ⟨s.data.map Char.toUpper⟩

/-- The `validStatuses` array of `updateOrderStatus`. -/
def validStatuses : List String :=
  ["PENDING", "CONFIRMED", "PROCESSING", "SHIPPED", "DELIVERED", "CANCELLED"]

/-- The delivery upsert inside the `updateOrderStatus` transaction. -/
def upsertDelivery (ds : List Delivery) (order : Order) (now : Nat)
    (newStatus : String) (trackingNumber courierCompany : Option String) :
    List Delivery :=
  match ds.find? (fun d => d.orderId == order.id) with
  | some _ =>
    ds.map (fun d =>
      if d.orderId == order.id then
        { d with status := if newStatus = "DELIVERED" then "DELIVERED" else "SHIPPED"
                 trackingNumber :=
                   if truthyOptStr trackingNumber then trackingNumber else d.trackingNumber
                 courierCompany :=
                   if truthyOptStr courierCompany then courierCompany else d.courierCompany
                 actualDelivery :=
                   if newStatus = "DELIVERED" then some now else d.actualDelivery }
      else d)
  | none =>
    ds ++ [{ orderId := order.id
             status := if newStatus = "SHIPPED" then "SHIPPED" else "PENDING"
             trackingNumber := jsOrNull trackingNumber
             courierCompany := jsOrNull courierCompany
             address := order.shippingAddress
             city := ""
             country := "Pakistan"
             actualDelivery := none }]

/-- Handler `updateOrderStatus` (`PUT /api/orders/:id/status`, admin route):
validates the requested status against the fixed set, stamps the milestone
timestamp for CONFIRMED / SHIPPED / DELIVERED, appends a tracking event and
upserts delivery metadata when shipping-related input is present. -/
def updateOrderStatus (db : DB) (user : User) (now : Nat) (orderId : Nat)
    (status : Option String) (description trackingNumber courierCompany : Option String) :
    Except ApiError DB :=
  if !(truthyOptStr status) || !(validStatuses.contains (toUpperStr (status.getD ""))) then
    .error ⟨400, "Invalid status. Valid options: " ++ String.intercalate ", " validStatuses⟩
  else
    match db.orders.find? (fun o => o.id == orderId) with
    | none => .error ⟨404, "Order not found"⟩
    | some order =>
      let newStatus := toUpperStr (status.getD "")
      .ok { db with
        orders := db.orders.map (fun o =>
          if o.id == orderId then
            { o with status := newStatus
                     confirmedAt := if newStatus = "CONFIRMED" then some now else o.confirmedAt
                     shippedAt := if newStatus = "SHIPPED" then some now else o.shippedAt
                     deliveredAt := if newStatus = "DELIVERED" then some now else o.deliveredAt }
          else o)
        tracking := db.tracking ++
          [⟨orderId, newStatus,
            jsOrStr description ("Order status updated to " ++ newStatus), some user.id⟩]
        deliveries :=
          if newStatus = "SHIPPED" ∨ truthyOptStr trackingNumber ∨ truthyOptStr courierCompany then
            upsertDelivery db.deliveries order now newStatus trackingNumber courierCompany
          else db.deliveries }


theorem find?_map_invariant {α : Type} (f : α → α) (P : α → Bool)
    (hf : ∀ a, P (f a) = P a) (l : List α) :
    (l.map f).find? P = (l.find? P).map f := by
  induction l with
  | nil => rfl
  | cons a l ih =>
    simp only [List.map_cons, List.find?_cons, hf a]
    cases P a
    · simpa using ih
    · rfl

/-- A per-item stock update keeps every id-keyed predicate invariant. -/
theorem stockStep_invariant (u : Product → Nat → Product)
    (hu : ∀ p q, (u p q).id = p.id) (a : Nat) (b : Nat) (pid : Nat) (p : Product) :
    ((if p.id == a then u p b else p).id == pid) = (p.id == pid) := by
  by_cases h : p.id = a
  · simp [h, hu]
  · simp [h]

theorem foldStock_find?_notmem {ι : Type} (pidOf qtyOf : ι → Nat)
    (u : Product → Nat → Product) (hu : ∀ p q, (u p q).id = p.id)
    (L : List ι) (ps : List Product) (pid : Nat)
    (hx : ∀ x ∈ L, pidOf x ≠ pid) :
    (L.foldl (fun acc it => acc.map
        (fun p => if p.id == pidOf it then u p (qtyOf it) else p)) ps).find?
        (fun p => p.id == pid)
      = ps.find? (fun p => p.id == pid) := by
  induction L generalizing ps with
  | nil => rfl
  | cons a L ih =>
    rw [List.foldl_cons, ih _ (fun x hx2 => hx x (List.mem_cons_of_mem a hx2)),
      find?_map_invariant _ _ (fun p => stockStep_invariant u hu _ _ _ p)]
    cases hf : ps.find? (fun p => p.id == pid) with
    | none => rfl
    | some p =>
      have hpid : p.id = pid := by simpa using List.find?_some hf
      have hne : p.id ≠ pidOf a := by
        rw [hpid]
        exact fun h => hx a (List.mem_cons_self a L) h.symm
      simp [hne]

theorem foldStock_find? {ι : Type} (pidOf qtyOf : ι → Nat)
    (u : Product → Nat → Product) (hu : ∀ p q, (u p q).id = p.id)
    (L : List ι) (ps : List Product) (x : ι)
    (hnd : (L.map pidOf).Nodup) (hx : x ∈ L) :
    (L.foldl (fun acc it => acc.map
        (fun p => if p.id == pidOf it then u p (qtyOf it) else p)) ps).find?
        (fun p => p.id == pidOf x)
      = (ps.find? (fun p => p.id == pidOf x)).map (fun p => u p (qtyOf x)) := by
  induction L generalizing ps with
  | nil => cases hx
  | cons a L ih =>
    rw [List.map_cons, List.nodup_cons] at hnd
    rw [List.foldl_cons]
    rcases List.mem_cons.mp hx with rfl | hxL
    · rw [foldStock_find?_notmem pidOf qtyOf u hu L _ _
        (fun y hy h => hnd.1 (by rw [← h]; exact List.mem_map_of_mem pidOf hy)),
        find?_map_invariant _ _ (fun p => stockStep_invariant u hu _ _ _ p)]
      cases hf : ps.find? (fun p => p.id == pidOf x) with
      | none => rfl
      | some p =>
        have hpid : p.id = pidOf x := by simpa using List.find?_some hf
        simp [hpid]
    · rw [ih _ hnd.2 hxL, find?_map_invariant _ _
        (fun p => stockStep_invariant u hu _ _ _ p)]
      cases hf : ps.find? (fun p => p.id == pidOf x) with
      | none => rfl
      | some p =>
        have hpid : p.id = pidOf x := by simpa using List.find?_some hf
        have hne : p.id ≠ pidOf a := by
          rw [hpid]
          intro h
          exact hnd.1 (by rw [← h]; exact List.mem_map_of_mem pidOf hxL)
        simp [hne]

/-- The order-item snapshot `createOrder` pushes for one cart line whose
product row is `p`. -/
def mkOrderItemOf (p : Product) (it : CartItem) : OrderItem :=
  { productId := it.productId
    quantity := it.quantity
    unitPrice := unitPriceJS p
    totalPrice := unitPriceJS p * (it.quantity : Rat)
    productName := p.name
    productImage := p.images.head?
    customization := it.customization }

/-- Inversion of a successful validation / pricing loop: the subtotal is the
sum of the line totals, and each order item is the snapshot of an active,
sufficiently stocked product row. -/
theorem buildOrderItems_ok_inv (db : DB) :
    ∀ (items : List CartItem) (sub : Rat) (oitems : List OrderItem),
      buildOrderItems db items = .ok (sub, oitems) →
      sub = (oitems.map (fun oi => oi.totalPrice)).sum ∧
        List.Forall₂ (fun (it : CartItem) (oi : OrderItem) => ∃ p : Product,
          findProduct db it.productId = some p ∧ p.isActive = true ∧
          (it.quantity : Int) ≤ p.stock ∧ oi = mkOrderItemOf p it) items oitems
  | [], sub, oitems, h => by
    simp only [buildOrderItems] at h
    cases h
    exact ⟨rfl, List.Forall₂.nil⟩
  | it :: rest, sub, oitems, h => by
    simp only [buildOrderItems] at h
    split at h
    · exact Except.noConfusion h
    next p hfp =>
      split at h
      · exact Except.noConfusion h
      next hact =>
        split at h
        · exact Except.noConfusion h
        next hst =>
          split at h
          · exact Except.noConfusion h
          next sub' oitems' hrec =>
            rw [Except.ok.injEq, Prod.mk.injEq] at h
            obtain ⟨rfl, rfl⟩ := h
            obtain ⟨hsum, hall⟩ := buildOrderItems_ok_inv db rest sub' oitems' hrec
            have hact' : p.isActive = true := by simpa using hact
            refine ⟨?_, List.Forall₂.cons ⟨p, hfp, hact', not_lt.mp hst, rfl⟩ hall⟩
            simp [mkOrderItemOf, hsum]

/-- The validation / pricing loop succeeds when every line references an
existing, active product with enough stock. -/
theorem buildOrderItems_ok_exists (db : DB) :
    ∀ (items : List CartItem),
      (∀ it ∈ items, ∃ p : Product, findProduct db it.productId = some p ∧
        p.isActive = true ∧ (it.quantity : Int) ≤ p.stock) →
      ∃ sub oitems, buildOrderItems db items = .ok (sub, oitems)
  | [], _ => ⟨0, [], rfl⟩
  | it :: rest, h => by
    obtain ⟨p, hfp, hact, hst⟩ := h it (List.mem_cons_self it rest)
    obtain ⟨sub, oitems, hrec⟩ := buildOrderItems_ok_exists db rest
      (fun x hx => h x (List.mem_cons_of_mem it hx))
    exact ⟨unitPriceJS p * (it.quantity : Rat) + sub, mkOrderItemOf p it :: oitems, by
      simp [buildOrderItems, hfp, hact, not_lt.mpr hst, hrec, mkOrderItemOf]⟩

/-- When every line references an existing active product but some line
overshoots its stock, the loop fails with the insufficient-stock message of
the first offending line, reporting that product's available stock. -/
theorem buildOrderItems_insufficient (db : DB) :
    ∀ (items : List CartItem),
      (∀ it ∈ items, ∃ p : Product, findProduct db it.productId = some p ∧
        p.isActive = true) →
      (∃ it ∈ items, ∃ p : Product, findProduct db it.productId = some p ∧
        p.stock < (it.quantity : Int)) →
      ∃ it ∈ items, ∃ p : Product, findProduct db it.productId = some p ∧
        p.stock < (it.quantity : Int) ∧
        buildOrderItems db items = .error ⟨400, insufficientStockMsg p⟩
  | [], _, hbad => by
    obtain ⟨it, hmem, _⟩ := hbad
    cases hmem
  | it :: rest, hall, hbad => by
    obtain ⟨p, hfp, hact⟩ := hall it (List.mem_cons_self it rest)
    by_cases hst : p.stock < (it.quantity : Int)
    · exact ⟨it, List.mem_cons_self it rest, p, hfp, hst, by
        simp [buildOrderItems, hfp, hact, hst]⟩
    · have hbad' : ∃ x ∈ rest, ∃ q : Product, findProduct db x.productId = some q ∧
          q.stock < (x.quantity : Int) := by
        obtain ⟨x, hxmem, q, hq, hqst⟩ := hbad
        rcases List.mem_cons.mp hxmem with rfl | hxrest
        · rw [hfp] at hq
          cases hq
          exact absurd hqst hst
        · exact ⟨x, hxrest, q, hq, hqst⟩
      obtain ⟨x, hxmem, q, hq, hqst, herr⟩ := buildOrderItems_insufficient db rest
        (fun y hy => hall y (List.mem_cons_of_mem it hy)) hbad'
      exact ⟨x, List.mem_cons_of_mem it hxmem, q, hq, hqst, by
        simp [buildOrderItems, hfp, hact, hst, herr]⟩

/-- Inversion of a successful checkout: recovers the cart, the priced
lines, and the exact shape of the returned order and of the post-state. -/
theorem createOrder_ok_inv (db : DB) (user : User) (year : Nat)
    (addr phone : String) (notes : Option String) (db2 : DB) (order : Order)
    (h : createOrder db user year addr phone notes = .ok (db2, order)) :
    ∃ (cart : Cart) (sub : Rat) (oitems : List OrderItem),
      activeCartOf db user.id = some cart ∧
      buildOrderItems db (itemsOfCart db cart.id) = .ok (sub, oitems) ∧
      order.items = oitems ∧
      order.subtotal = sub ∧
      order.shippingCost = (if 5000 ≤ sub then (0 : Rat) else 200) ∧
      order.taxAmount = 0 ∧
      order.totalAmount = sub + (if 5000 ≤ sub then (0 : Rat) else 200) + 0 ∧
      order.orderNumber = generateOrderNumber db year ∧
      order.id = db.nextOrderId ∧
      order.status = "PENDING" ∧
      order.userId = user.id ∧
      db2.orders = db.orders ++ [order] ∧
      db2.products = (itemsOfCart db cart.id).foldl
        (fun ps it => decrementStock ps it.productId it.quantity) db.products ∧
      db2.tracking = db.tracking ++
        [⟨order.id, "Order Placed", "Your order has been placed successfully", none⟩] ∧
      db2.cartItems = db.cartItems.filter (fun ci => !(ci.cartId == cart.id)) ∧
      db2.carts = db.carts.filter (fun c => !(c.id == cart.id)) ∧
      db2.nextCartId = db.nextCartId := by
  simp only [createOrder] at h
  split at h
  · exact Except.noConfusion h
  · split at h
    · exact Except.noConfusion h
    next cart hcart =>
      split at h
      · exact Except.noConfusion h
      next hne =>
        split at h
        · exact Except.noConfusion h
        next sub oitems hbuild =>
          rw [Except.ok.injEq, Prod.mk.injEq] at h
          obtain ⟨rfl, rfl⟩ := h
          exact ⟨cart, sub, oitems, hcart, hbuild, rfl, rfl, rfl, rfl, rfl, rfl, rfl,
            rfl, rfl, rfl, rfl, rfl, rfl, rfl, rfl⟩

/-- A checkout succeeds whenever the request has an address and phone, the
active cart is non-empty, and every line has an active product with enough
stock. -/
theorem createOrder_ok_exists (db : DB) (user : User) (year : Nat)
    (addr phone : String) (notes : Option String) (cart : Cart)
    (ha : addr ≠ "") (hp : phone ≠ "")
    (hcart : activeCartOf db user.id = some cart)
    (hne : itemsOfCart db cart.id ≠ [])
    (hprod : ∀ it ∈ itemsOfCart db cart.id, ∃ p : Product,
      findProduct db it.productId = some p ∧ p.isActive = true ∧
      (it.quantity : Int) ≤ p.stock) :
    ∃ db2 order, createOrder db user year addr phone notes = .ok (db2, order) := by
  obtain ⟨sub, oitems, hbuild⟩ := buildOrderItems_ok_exists db _ hprod
  have hne' : (itemsOfCart db cart.id).isEmpty = false := by
    cases hl : itemsOfCart db cart.id with
    | nil => exact absurd hl hne
    | cons a l => rfl
  have hcond : ¬(addr = "" ∨ phone = "") := by
    rintro (h | h)
    · exact ha h
    · exact hp h
  simp only [createOrder, if_neg hcond, hcart, hne', Bool.false_eq_true, if_false, hbuild]
  exact ⟨_, _, rfl⟩

/-- Stock lookup after the checkout decrement loop: the product of a cart
line (with distinct product ids per line) has lost exactly that line's
quantity. -/
theorem decrementStock_foldl_find? (L : List CartItem) (ps : List Product)
    (x : CartItem) (hnd : (L.map (fun i => i.productId)).Nodup) (hx : x ∈ L) :
    (L.foldl (fun acc it => decrementStock acc it.productId it.quantity) ps).find?
        (fun p => p.id == x.productId)
      = (ps.find? (fun p => p.id == x.productId)).map
          (fun p => { p with stock := p.stock - (x.quantity : Int) }) := by
  have h := foldStock_find? (fun i : CartItem => i.productId) (fun i => i.quantity)
    (fun p q => { p with stock := p.stock - (q : Int) }) (fun _ _ => rfl) L ps x hnd hx
  simpa [decrementStock] using h

/-- Stock lookup after the cancellation restore loop: the product of an
order line (with distinct product ids per line) has gained exactly that
line's quantity. -/
theorem incrementStock_foldl_find? (L : List OrderItem) (ps : List Product)
    (x : OrderItem) (hnd : (L.map (fun i => i.productId)).Nodup) (hx : x ∈ L) :
    (L.foldl (fun acc it => incrementStock acc it.productId it.quantity) ps).find?
        (fun p => p.id == x.productId)
      = (ps.find? (fun p => p.id == x.productId)).map
          (fun p => { p with stock := p.stock + (x.quantity : Int) }) := by
  have h := foldStock_find? (fun i : OrderItem => i.productId) (fun i => i.quantity)
    (fun p q => { p with stock := p.stock + (q : Int) }) (fun _ _ => rfl) L ps x hnd hx
  simpa [incrementStock] using h

/-- Updating the row keyed `orderId` in place: `find?` retrieves the
updated row. -/
theorem orders_update_find? (os : List Order) (orderId : Nat) (order : Order)
    (f : Order → Order) (hf : ∀ o, (f o).id = o.id)
    (hord : os.find? (fun o => o.id == orderId) = some order) :
    (os.map (fun o => if o.id == orderId then f o else o)).find?
        (fun o => o.id == orderId) = some (f order) := by
  rw [find?_map_invariant _ _ (fun o => by
    by_cases h : o.id = orderId
    · simp [h, hf]
    · simp [h]), hord]
  have hid : order.id = orderId := by simpa using List.find?_some hord
  simp [hid]

/-- Inversion of a successful cancellation: the exact shape of the
post-state. -/
theorem cancelOrder_ok_inv (db : DB) (user : User) (now : Nat) (orderId : Nat)
    (reason : Option String) (db2 : DB)
    (h : cancelOrder db user now orderId reason = .ok db2) :
    ∃ order, db.orders.find? (fun o => o.id == orderId) = some order ∧
      db2.orders = db.orders.map (fun o =>
        if o.id == orderId then
          { o with status := "CANCELLED"
                   cancelledAt := some now
                   cancelReason := some (jsOrStr reason "Cancelled by customer") }
        else o) ∧
      db2.products = order.items.foldl
        (fun ps it => incrementStock ps it.productId it.quantity) db.products ∧
      db2.tracking = db.tracking ++
        [⟨orderId, "Cancelled", jsOrStr reason "Order cancelled by customer", some user.id⟩] ∧
      db2.carts = db.carts ∧ db2.cartItems = db.cartItems := by
  simp only [cancelOrder] at h
  split at h
  · exact Except.noConfusion h
  next order hord =>
    split at h
    · exact Except.noConfusion h
    split at h
    · exact Except.noConfusion h
    split at h
    · exact Except.noConfusion h
    rw [Except.ok.injEq] at h
    subst h
    exact ⟨order, hord, rfl, rfl, rfl, rfl, rfl⟩

/-- A cancellation goes through whenever the order exists, the caller is
admin or owner, the status guard passes (admin, or an early status), and
the admin-reason guard passes. -/
theorem cancelOrder_ok_of (db : DB) (user : User) (now : Nat) (orderId : Nat)
    (reason : Option String) (order : Order)
    (hord : db.orders.find? (fun o => o.id == orderId) = some order)
    (hauth : user.role = "ADMIN" ∨ order.userId = user.id)
    (hstat : user.role = "ADMIN" ∨ order.status = "PENDING" ∨ order.status = "CONFIRMED")
    (hreason : user.role ≠ "ADMIN" ∨ order.userId = user.id ∨ truthyOptStr reason = true) :
    ∃ db2, cancelOrder db user now orderId reason = .ok db2 := by
  by_cases hA : user.role = "ADMIN"
  · have hA' : (user.role == "ADMIN") = true := by simp [hA]
    by_cases hO : order.userId = user.id
    · have hO' : (order.userId == user.id) = true := by simp [hO]
      simp only [cancelOrder, hord, hA', hO', Bool.not_true, Bool.false_and, Bool.and_false,
        Bool.false_eq_true, if_false]
      exact ⟨_, rfl⟩
    · have hO' : (order.userId == user.id) = false := by simp [hO]
      have hr : truthyOptStr reason = true := by
        rcases hreason with h | h | h
        · exact absurd hA h
        · exact absurd h hO
        · exact h
      simp only [cancelOrder, hord, hA', hO', hr, Bool.not_true, Bool.not_false,
        Bool.false_and, Bool.and_false, Bool.true_and, Bool.and_true,
        Bool.false_eq_true, if_false]
      exact ⟨_, rfl⟩
  · have hA' : (user.role == "ADMIN") = false := by simp [hA]
    have hO : order.userId = user.id := by
      rcases hauth with h | h
      · exact absurd h hA
      · exact h
    have hO' : (order.userId == user.id) = true := by simp [hO]
    have hS : (["PENDING", "CONFIRMED"].contains order.status) = true := by
      rcases hstat with h | h | h
      · exact absurd h hA
      · simp [h, List.contains]
      · simp [h, List.contains]
    simp only [cancelOrder, hord, hA', hO', hS, Bool.not_true, Bool.not_false,
      Bool.false_and, Bool.and_false, Bool.true_and, Bool.and_true,
      Bool.false_eq_true, if_false]
    exact ⟨_, rfl⟩


/-- Decidable equality for handler results, so witnesses can be checked by
evaluation. -/
instance {α β : Type} [DecidableEq α] [DecidableEq β] : DecidableEq (Except α β)
  | .error a, .error b =>
    if h : a = b then .isTrue (by rw [h])
    else .isFalse (by intro hc; cases hc; exact h rfl)
  | .error _, .ok _ => .isFalse (by intro hc; cases hc)
  | .ok _, .error _ => .isFalse (by intro hc; cases hc)
  | .ok a, .ok b =>
    if h : a = b then .isTrue (by rw [h])
    else .isFalse (by intro hc; cases hc; exact h rfl)

/-- Sample catalogue used by the concrete witnesses: product 2 has a zero
discount price, product 3 a real one. -/
def sampleProduct1 : Product := ⟨1, "Resin Tray", 100, none, 5, true, ["tray.jpg"]⟩

def sampleProduct2 : Product := ⟨2, "Resin Coaster", 50, some 0, 1, true, []⟩

def sampleProduct3 : Product := ⟨3, "Wall Clock", 3000, some 2500, 10, true, ["clock.jpg"]⟩

def sampleCart : Cart := ⟨10, 7, true⟩

def sampleItem1 : CartItem := ⟨100, 10, 1, 2, 100, none⟩

def sampleItem2 : CartItem := ⟨101, 10, 2, 1, 50, none⟩

/-- A state with one active two-line cart for user 7. -/
def sampleDB : DB :=
  ⟨[sampleProduct1, sampleProduct2, sampleProduct3], [sampleCart],
    [sampleItem1, sampleItem2], [], [], [], 11, 1⟩

def buyer : User := ⟨7, "CUSTOMER"⟩

def adminUser : User := ⟨99, "ADMIN"⟩

/-- A state whose cart is missing entirely. -/
def emptyDB : DB := ⟨[sampleProduct1], [], [], [], [], [], 1, 1⟩

/-- A state where the cart line asks for more than the stock: product 2
has stock 1 but the line asks for 4. -/
def lowStockDB : DB :=
  ⟨[sampleProduct1, sampleProduct2], [sampleCart],
    [sampleItem1, ⟨101, 10, 2, 4, 50, none⟩], [], [], [], 11, 1⟩

/-- C3: a checkout attempt (with address and phone supplied) by a user
whose active cart is missing or has no item rows fails with the 400
`Your cart is empty` error; the `Except.error` result carries no new
state, so no order row is created and no stock is mutated. -/
theorem c3_empty_cart_rejected (db : DB) (user : User) (year : Nat)
    (addr phone : String) (notes : Option String)
    (ha : addr ≠ "") (hp : phone ≠ "")
    (hempty : activeCartOf db user.id = none ∨
      ∃ cart, activeCartOf db user.id = some cart ∧ itemsOfCart db cart.id = []) :
    createOrder db user year addr phone notes = .error ⟨400, "Your cart is empty"⟩ := by
  have hcond : ¬(addr = "" ∨ phone = "") := by
    rintro (h | h)
    · exact ha h
    · exact hp h
  rcases hempty with h | ⟨cart, hc, hi⟩
  · simp [createOrder, if_neg hcond, h]
  · simp [createOrder, if_neg hcond, hc, hi]

/-- Witness for C3 at a concrete state with no cart at all. -/
theorem c3_empty_cart_rejected_witness :
    activeCartOf emptyDB buyer.id = none ∧
    createOrder emptyDB buyer 2026 "addr" "0300" none =
      .error ⟨400, "Your cart is empty"⟩ :=
  ⟨by decide, c3_empty_cart_rejected emptyDB buyer 2026 "addr" "0300" none
    (by decide) (by decide) (Or.inl (by decide))⟩

/-- C4: when every cart line references an existing active product but some
line asks for more than the current stock, the checkout fails with the 400
insufficient-stock error naming the first offending product and its actual
available quantity; the error result carries no new state, so no stock
changes (in particular not for the lines whose stock sufficed). -/
theorem c4_insufficient_stock_rejected (db : DB) (user : User) (year : Nat)
    (addr phone : String) (notes : Option String) (cart : Cart)
    (ha : addr ≠ "") (hp : phone ≠ "")
    (hcart : activeCartOf db user.id = some cart)
    (hall : ∀ it ∈ itemsOfCart db cart.id, ∃ p : Product,
      findProduct db it.productId = some p ∧ p.isActive = true)
    (hbad : ∃ it ∈ itemsOfCart db cart.id, ∃ p : Product,
      findProduct db it.productId = some p ∧ p.stock < (it.quantity : Int)) :
    ∃ it ∈ itemsOfCart db cart.id, ∃ p : Product,
      findProduct db it.productId = some p ∧ p.stock < (it.quantity : Int) ∧
      createOrder db user year addr phone notes =
        .error ⟨400, insufficientStockMsg p⟩ := by
  have hcond : ¬(addr = "" ∨ phone = "") := by
    rintro (h | h)
    · exact ha h
    · exact hp h
  obtain ⟨it, hmem, p, hfp, hst, herr⟩ := buildOrderItems_insufficient db _ hall hbad
  have hne' : (itemsOfCart db cart.id).isEmpty = false := by
    cases hl : itemsOfCart db cart.id with
    | nil => rw [hl] at hmem; cases hmem
    | cons a l => rfl
  exact ⟨it, hmem, p, hfp, hst, by
    simp [createOrder, if_neg hcond, hcart, hne', herr]⟩

/-- Witness for C4: product 2 has stock 1, the cart line asks for 4; the
error message reports the single available unit. -/
theorem c4_insufficient_stock_rejected_witness :
    (∃ it ∈ itemsOfCart lowStockDB sampleCart.id, ∃ p : Product,
      findProduct lowStockDB it.productId = some p ∧
      p.stock < (it.quantity : Int) ∧
      createOrder lowStockDB buyer 2026 "addr" "0300" none =
        .error ⟨400, insufficientStockMsg p⟩) ∧
    createOrder lowStockDB buyer 2026 "addr" "0300" none =
      .error ⟨400, "Insufficient stock for Resin Coaster. Only 1 available."⟩ :=
  ⟨c4_insufficient_stock_rejected lowStockDB buyer 2026 "addr" "0300" none sampleCart
      (by decide) (by decide) (by decide)
      (fun it hmem => by
        have h2 : it ∈ [sampleItem1, ⟨101, 10, 2, 4, 50, none⟩] := hmem
        rcases (by simpa using h2 : it = sampleItem1 ∨
            it = ⟨101, 10, 2, 4, 50, none⟩) with rfl | rfl
        · exact ⟨sampleProduct1, by decide, by decide⟩
        · exact ⟨sampleProduct2, by decide, by decide⟩)
      ⟨⟨101, 10, 2, 4, 50, none⟩, by decide, sampleProduct2, by decide, by decide⟩,
    by decide⟩


/-- C6: the error taxonomy of `cancelOrder`: 404 when the order does not
exist; 403 when the caller is neither owner nor admin; 400 when a
non-admin owner cancels outside PENDING / CONFIRMED; 400 when an admin
cancels another user's order without a truthy reason; and an admin with a
reason succeeds regardless of the order's status. -/
theorem c6_cancel_error_taxonomy :
    (∀ (db : DB) (user : User) (now orderId : Nat) (reason : Option String),
      db.orders.find? (fun o => o.id == orderId) = none →
      cancelOrder db user now orderId reason = .error ⟨404, "Order not found"⟩) ∧
    (∀ (db : DB) (user : User) (now orderId : Nat) (reason : Option String)
      (order : Order),
      db.orders.find? (fun o => o.id == orderId) = some order →
      user.role ≠ "ADMIN" → order.userId ≠ user.id →
      cancelOrder db user now orderId reason =
        .error ⟨403, "Not authorized to cancel this order"⟩) ∧
    (∀ (db : DB) (user : User) (now orderId : Nat) (reason : Option String)
      (order : Order),
      db.orders.find? (fun o => o.id == orderId) = some order →
      user.role ≠ "ADMIN" → order.userId = user.id →
      order.status ≠ "PENDING" → order.status ≠ "CONFIRMED" →
      cancelOrder db user now orderId reason =
        .error ⟨400, "Order cannot be cancelled at this stage. Please contact support."⟩) ∧
    (∀ (db : DB) (user : User) (now orderId : Nat) (reason : Option String)
      (order : Order),
      db.orders.find? (fun o => o.id == orderId) = some order →
      user.role = "ADMIN" → order.userId ≠ user.id →
      (reason = none ∨ reason = some "") →
      cancelOrder db user now orderId reason =
        .error ⟨400, "Admin must provide a reason for cancellation"⟩) ∧
    (∀ (db : DB) (user : User) (now orderId : Nat) (reason : Option String)
      (order : Order),
      db.orders.find? (fun o => o.id == orderId) = some order →
      user.role = "ADMIN" → truthyOptStr reason = true →
      ∃ db2, cancelOrder db user now orderId reason = .ok db2) := by
  refine ⟨?_, ?_, ?_, ?_, ?_⟩
  · intro db user now orderId reason h
    simp [cancelOrder, h]
  · intro db user now orderId reason order hord hA hO
    have hA' : (user.role == "ADMIN") = false := by simp [hA]
    have hO' : (order.userId == user.id) = false := by simp [hO]
    simp [cancelOrder, hord, hA', hO']
  · intro db user now orderId reason order hord hA hO h1 h2
    have hA' : (user.role == "ADMIN") = false := by simp [hA]
    have hO' : (order.userId == user.id) = true := by simp [hO]
    have hS : (["PENDING", "CONFIRMED"].contains order.status) = false := by
      simp [h1, h2]
    simp only [cancelOrder, hord, hA', hO', hS, Bool.not_false, Bool.not_true,
      Bool.true_and, Bool.false_and, Bool.and_true, Bool.and_false, if_true,
      Bool.false_eq_true, if_false]
  · intro db user now orderId reason order hord hA hO hr
    have hA' : (user.role == "ADMIN") = true := by simp [hA]
    have hO' : (order.userId == user.id) = false := by simp [hO]
    have hr' : truthyOptStr reason = false := by
      rcases hr with rfl | rfl <;> rfl
    simp [cancelOrder, hord, hA', hO', hr']
  · intro db user now orderId reason order hord hA hr
    exact cancelOrder_ok_of db user now orderId reason order hord (Or.inl hA)
      (Or.inl hA) (Or.inr (Or.inr hr))

/-- A one-order state used by the cancellation witnesses: user 7 owns a
pending order for two trays; product 1 currently has stock 3. -/
def sampleOrderItem : OrderItem := ⟨1, 2, 100, 200, "Resin Tray", some "tray.jpg", none⟩

def sampleOrder : Order :=
  ⟨1, "RA-2025-000001", 7, "PENDING", 200, 200, 0, 400, "X", "Y", none,
    [sampleOrderItem], 2025, none, none, none, none, none⟩

def orderDB : DB :=
  ⟨[⟨1, "Resin Tray", 100, none, 3, true, ["tray.jpg"]⟩], [], [],
    [sampleOrder], [], [], 11, 2⟩

/-- A state whose only order is already cancelled. -/
def cancelledOrderDB : DB :=
  ⟨[⟨1, "Resin Tray", 100, none, 3, true, ["tray.jpg"]⟩], [], [],
    [{ sampleOrder with status := "CANCELLED" }], [], [], 11, 2⟩

/-- Witness for C6, exercising all five branches on concrete states. -/
theorem c6_cancel_error_taxonomy_witness :
    cancelOrder orderDB buyer 5 99 none = .error ⟨404, "Order not found"⟩ ∧
    cancelOrder orderDB ⟨8, "CUSTOMER"⟩ 5 1 none =
      .error ⟨403, "Not authorized to cancel this order"⟩ ∧
    cancelOrder cancelledOrderDB buyer 5 1 none =
      .error ⟨400, "Order cannot be cancelled at this stage. Please contact support."⟩ ∧
    cancelOrder orderDB adminUser 5 1 none =
      .error ⟨400, "Admin must provide a reason for cancellation"⟩ ∧
    ∃ db2, cancelOrder cancelledOrderDB adminUser 5 1 (some "damaged") = .ok db2 :=
  ⟨c6_cancel_error_taxonomy.1 orderDB buyer 5 99 none (by decide),
   c6_cancel_error_taxonomy.2.1 orderDB ⟨8, "CUSTOMER"⟩ 5 1 none sampleOrder
     (by decide) (by decide) (by decide),
   c6_cancel_error_taxonomy.2.2.1 cancelledOrderDB buyer 5 1 none
     { sampleOrder with status := "CANCELLED" } (by decide) (by decide) (by decide)
     (by decide) (by decide),
   c6_cancel_error_taxonomy.2.2.2.1 orderDB adminUser 5 1 none sampleOrder
     (by decide) (by decide) (by decide) (Or.inl rfl),
   c6_cancel_error_taxonomy.2.2.2.2 cancelledOrderDB adminUser 5 1 (some "damaged")
     { sampleOrder with status := "CANCELLED" } (by decide) (by decide) (by decide)⟩

/-- C7: the order number of a successful checkout is the fixed prefix, the
current year, and a six-wide zero-padded counter equal to one plus the
number of orders already created that year; the count is taken on the
pre-checkout state, i.e. outside (before) the checkout transaction, so the
new order itself is not counted. -/
theorem c7_order_number_format (db : DB) (user : User) (year : Nat)
    (addr phone : String) (notes : Option String) (db2 : DB) (order : Order)
    (h : createOrder db user year addr phone notes = .ok (db2, order))
    (hy : ∀ o ∈ db.orders, o.createdAtYear ≤ year) :
    order.orderNumber = "RA-" ++ toString year ++ "-" ++
      padStart 6 '0'
        (toString ((db.orders.countP (fun o => o.createdAtYear == year)) + 1)) := by
  obtain ⟨cart, sub, oitems, _, _, _, _, _, _, _, hnum, _⟩ :=
    createOrder_ok_inv db user year addr phone notes db2 order h
  rw [hnum]
  simp only [generateOrderNumber]
  have hc : db.orders.countP (fun o => year ≤ o.createdAtYear)
      = db.orders.countP (fun o => o.createdAtYear == year) := by
    refine List.countP_congr (fun o ho => ?_)
    have := hy o ho
    simp only [decide_eq_true_eq, beq_iff_eq]
    omega
  rw [hc]

/-- Two prior orders, one of them from an earlier year. -/
def c7DB : DB :=
  { sampleDB with
    orders := [sampleOrder, { sampleOrder with id := 9, createdAtYear := 2024 }]
    nextOrderId := 10 }

/-- Witness for C7: a 2025 checkout on a state holding one order from 2025
and one from 2024 yields counter 000002. -/
theorem c7_order_number_format_witness :
    ∃ db2 order,
      createOrder c7DB buyer 2025 "X" "Y" none = .ok (db2, order) ∧
      order.orderNumber = "RA-2025-000002" :=
  ⟨_, _, rfl,
    (c7_order_number_format c7DB buyer 2025 "X" "Y" none _ _ rfl
      (by decide)).trans (by decide)⟩


/-- C8: `updateOrderStatus` with a status value in the fixed set succeeds
on any existing order regardless of its current status, sets the new
status, stamps the matching milestone timestamp for CONFIRMED / SHIPPED /
DELIVERED, and appends a tracking event; a value outside the set is
rejected with a 400 error. -/
theorem c8_update_status (db : DB) (user : User) (now orderId : Nat)
    (status : Option String)
    (description trackingNumber courierCompany : Option String) :
    (validStatuses.contains (toUpperStr (status.getD "")) = false →
      updateOrderStatus db user now orderId status description trackingNumber
          courierCompany =
        .error ⟨400, "Invalid status. Valid options: " ++
          String.intercalate ", " validStatuses⟩) ∧
    (∀ order : Order,
      truthyOptStr status = true →
      validStatuses.contains (toUpperStr (status.getD "")) = true →
      db.orders.find? (fun o => o.id == orderId) = some order →
      ∃ db2,
        updateOrderStatus db user now orderId status description trackingNumber
            courierCompany = .ok db2 ∧
        (∃ o2, db2.orders.find? (fun o => o.id == orderId) = some o2 ∧
          o2.status = toUpperStr (status.getD "") ∧
          (toUpperStr (status.getD "") = "CONFIRMED" → o2.confirmedAt = some now) ∧
          (toUpperStr (status.getD "") = "SHIPPED" → o2.shippedAt = some now) ∧
          (toUpperStr (status.getD "") = "DELIVERED" → o2.deliveredAt = some now)) ∧
        db2.tracking = db.tracking ++
          [⟨orderId, toUpperStr (status.getD ""),
            jsOrStr description ("Order status updated to " ++ toUpperStr (status.getD "")),
            some user.id⟩]) := by
  constructor
  · intro hbad
    have hc : (!(truthyOptStr status) ||
        !(validStatuses.contains (toUpperStr (status.getD "")))) = true := by
      rw [hbad]
      simp
    rw [updateOrderStatus, if_pos hc]
  · intro order hst hvalid hord
    simp only [updateOrderStatus, hst, hvalid, Bool.not_true, Bool.false_or, hord,
      Bool.false_eq_true, if_false]
    refine ⟨_, rfl, ⟨_, orders_update_find? db.orders orderId order _
      (fun o => rfl) hord, rfl, ?_, ?_, ?_⟩, rfl⟩
    · intro h
      simp [h]
    · intro h
      simp [h]
    · intro h
      simp [h]

/-- Witness for C8: rejecting a bogus status, and shipping order 1 from a
PENDING state (no predecessor validation) stamps `shippedAt` and appends
the tracking event. -/
theorem c8_update_status_witness :
    (updateOrderStatus orderDB adminUser 77 1 (some "LOST") none none none =
      .error ⟨400, "Invalid status. Valid options: " ++
        String.intercalate ", " validStatuses⟩) ∧
    ∃ db2,
      updateOrderStatus orderDB adminUser 77 1 (some "SHIPPED") none none none =
          .ok db2 ∧
      (∃ o2, db2.orders.find? (fun o => o.id == 1) = some o2 ∧
        o2.status = toUpperStr (some "SHIPPED" |>.getD "") ∧
        ((toUpperStr (some "SHIPPED" |>.getD "") = "CONFIRMED" → o2.confirmedAt = some 77)) ∧
        ((toUpperStr (some "SHIPPED" |>.getD "") = "SHIPPED" → o2.shippedAt = some 77)) ∧
        ((toUpperStr (some "SHIPPED" |>.getD "") = "DELIVERED" → o2.deliveredAt = some 77))) ∧
      db2.tracking = orderDB.tracking ++
        [⟨1, toUpperStr (some "SHIPPED" |>.getD ""),
          jsOrStr none ("Order status updated to " ++ toUpperStr (some "SHIPPED" |>.getD "")),
          some adminUser.id⟩] :=
  ⟨(c8_update_status orderDB adminUser 77 1 (some "LOST") none none none).1 (by decide),
   (c8_update_status orderDB adminUser 77 1 (some "SHIPPED") none none none).2
     sampleOrder (by decide) (by decide) (by decide)⟩

/-- C9: for an admin caller (supplying a reason), `cancelOrder` on an
order already in status CANCELLED is not stopped by the status guard: the
cancellation transaction runs again and adds each line's quantity to the
referenced product's stock once more, so stock restoration is not
idempotent on the admin path. -/
theorem c9_admin_recancel_restores_again (db : DB) (user : User) (now orderId : Nat)
    (reason : Option String) (order : Order)
    (hord : db.orders.find? (fun o => o.id == orderId) = some order)
    (_hst : order.status = "CANCELLED")
    (hrole : user.role = "ADMIN")
    (hreason : truthyOptStr reason = true)
    (hnd : (order.items.map (fun i => i.productId)).Nodup) :
    ∃ db2, cancelOrder db user now orderId reason = .ok db2 ∧
      ∀ it ∈ order.items, ∀ p : Product, findProduct db it.productId = some p →
        findProduct db2 it.productId =
          some { p with stock := p.stock + (it.quantity : Int) } := by
  obtain ⟨db2, hok⟩ := cancelOrder_ok_of db user now orderId reason order hord
    (Or.inl hrole) (Or.inl hrole) (Or.inr (Or.inr hreason))
  obtain ⟨order', hord', _, hprods, _, _, _⟩ :=
    cancelOrder_ok_inv db user now orderId reason db2 hok
  rw [hord] at hord'
  cases hord'
  refine ⟨db2, hok, fun it hit p hfp => ?_⟩
  have hfp' : db.products.find? (fun q => q.id == it.productId) = some p := hfp
  show db2.products.find? (fun q => q.id == it.productId) = _
  rw [hprods, incrementStock_foldl_find? order.items db.products it hnd hit, hfp']
  rfl

/-- Witness for C9: admin-cancelling the already-cancelled order lifts
product 1's stock from 3 to 5 again. -/
theorem c9_admin_recancel_restores_again_witness :
    ∃ db2, cancelOrder cancelledOrderDB adminUser 6 1 (some "fraud") = .ok db2 ∧
      findProduct db2 1 = some ⟨1, "Resin Tray", 100, none, 5, true, ["tray.jpg"]⟩ := by
  obtain ⟨db2, hok, hstock⟩ := c9_admin_recancel_restores_again cancelledOrderDB
    adminUser 6 1 (some "fraud") { sampleOrder with status := "CANCELLED" }
    (by decide) (by decide) (by decide) (by decide) (by decide)
  exact ⟨db2, hok, hstock sampleOrderItem (by decide)
    ⟨1, "Resin Tray", 100, none, 3, true, ["tray.jpg"]⟩ (by decide)⟩


/-- C5: a non-admin owner cancelling a PENDING or CONFIRMED order gets:
each line's product stock raised by exactly the line quantity, the order
marked CANCELLED with cancellation timestamp and reason recorded, and a
tracking event appended; cancelling the same order again then fails with
the 400 state-conflict error and (the error result carrying no state) does
not restore stock a second time. -/
theorem c5_owner_cancel (db : DB) (user : User) (now now2 orderId : Nat)
    (reason reason2 : Option String) (order : Order)
    (hord : db.orders.find? (fun o => o.id == orderId) = some order)
    (hown : order.userId = user.id)
    (hrole : user.role ≠ "ADMIN")
    (hst : order.status = "PENDING" ∨ order.status = "CONFIRMED")
    (hnd : (order.items.map (fun i => i.productId)).Nodup) :
    ∃ db2, cancelOrder db user now orderId reason = .ok db2 ∧
      (∀ it ∈ order.items, ∀ p : Product, findProduct db it.productId = some p →
        findProduct db2 it.productId =
          some { p with stock := p.stock + (it.quantity : Int) }) ∧
      (∃ o2, db2.orders.find? (fun o => o.id == orderId) = some o2 ∧
        o2.status = "CANCELLED" ∧ o2.cancelledAt = some now ∧
        o2.cancelReason = some (jsOrStr reason "Cancelled by customer")) ∧
      db2.tracking = db.tracking ++
        [⟨orderId, "Cancelled", jsOrStr reason "Order cancelled by customer",
          some user.id⟩] ∧
      cancelOrder db2 user now2 orderId reason2 =
        .error ⟨400, "Order cannot be cancelled at this stage. Please contact support."⟩ := by
  obtain ⟨db2, hok⟩ := cancelOrder_ok_of db user now orderId reason order hord
    (Or.inr hown) (Or.inr hst) (Or.inl hrole)
  obtain ⟨order', hord', horders, hprods, htrack, _, _⟩ :=
    cancelOrder_ok_inv db user now orderId reason db2 hok
  rw [hord] at hord'
  cases hord'
  have hord2 : db2.orders.find? (fun o => o.id == orderId) =
      some { order with status := "CANCELLED"
                        cancelledAt := some now
                        cancelReason := some (jsOrStr reason "Cancelled by customer") } := by
    rw [horders]
    exact orders_update_find? db.orders orderId order _ (fun o => rfl) hord
  refine ⟨db2, hok, ?_, ⟨_, hord2, rfl, rfl, rfl⟩, htrack, ?_⟩
  · intro it hit p hfp
    have hfp' : db.products.find? (fun q => q.id == it.productId) = some p := hfp
    show db2.products.find? (fun q => q.id == it.productId) = _
    rw [hprods, incrementStock_foldl_find? order.items db.products it hnd hit, hfp']
    rfl
  · have hA' : (user.role == "ADMIN") = false := by simp [hrole]
    have hO' : (order.userId == user.id) = true := by simp [hown]
    have hS : (["PENDING", "CONFIRMED"].contains
        ({ order with status := "CANCELLED"
                      cancelledAt := some now
                      cancelReason := some (jsOrStr reason "Cancelled by customer") : Order}.status))
        = false := rfl
    simp only [cancelOrder, hord2, hA', hO', hS, Bool.not_false, Bool.not_true,
      Bool.true_and, Bool.false_and, Bool.and_true, Bool.and_false, if_true,
      Bool.false_eq_true, if_false]

/-- Witness for C5: user 7 cancels the pending sample order; stock of
product 1 goes from 3 to 5, the order is cancelled with the default
reason, and a second attempt hits the state-conflict error. -/
theorem c5_owner_cancel_witness :
    ∃ db2, cancelOrder orderDB buyer 4 1 none = .ok db2 ∧
      (∀ it ∈ sampleOrder.items, ∀ p : Product,
        findProduct orderDB it.productId = some p →
        findProduct db2 it.productId =
          some { p with stock := p.stock + (it.quantity : Int) }) ∧
      (∃ o2, db2.orders.find? (fun o => o.id == 1) = some o2 ∧
        o2.status = "CANCELLED" ∧ o2.cancelledAt = some 4 ∧
        o2.cancelReason = some (jsOrStr none "Cancelled by customer")) ∧
      db2.tracking = orderDB.tracking ++
        [⟨1, "Cancelled", jsOrStr none "Order cancelled by customer", some buyer.id⟩] ∧
      cancelOrder db2 buyer 9 1 none =
        .error ⟨400, "Order cannot be cancelled at this stage. Please contact support."⟩ :=
  c5_owner_cancel orderDB buyer 4 9 1 none none sampleOrder
    (by decide) (by decide) (by decide) (Or.inl (by decide)) (by decide)


/-- C2: on every successful checkout each line's unit price is the
product's discount price if set (the column is a Decimal object, truthy
even at zero, so any non-null discount is used), else its list price;
each line total is unit price times quantity; the subtotal is the sum of
line totals; shipping is 0 exactly when the subtotal reaches the fixed
5000 threshold (including exact equality) and the flat fee 200 below it
(even one cent below); tax is 0; and the total is subtotal + shipping +
tax. -/
theorem c2_pricing_rules (db : DB) (user : User) (year : Nat)
    (addr phone : String) (notes : Option String) (db2 : DB) (order : Order)
    (h : createOrder db user year addr phone notes = .ok (db2, order)) :
    (∃ cart, activeCartOf db user.id = some cart ∧
      List.Forall₂ (fun (it : CartItem) (oi : OrderItem) => ∃ p : Product,
        findProduct db it.productId = some p ∧
        oi.quantity = it.quantity ∧
        ((∃ d, p.discountPrice = some d ∧ oi.unitPrice = d) ∨
          (p.discountPrice = none ∧ oi.unitPrice = p.price)) ∧
        oi.totalPrice = oi.unitPrice * (oi.quantity : Rat))
        (itemsOfCart db cart.id) order.items) ∧
    order.subtotal = (order.items.map (fun oi => oi.totalPrice)).sum ∧
    order.shippingCost = (if 5000 ≤ order.subtotal then (0 : Rat) else 200) ∧
    order.taxAmount = 0 ∧
    order.totalAmount = order.subtotal + order.shippingCost + order.taxAmount := by
  obtain ⟨cart, sub, oitems, hcart, hbuild, hitems, hsub, hship, htax, htot, _⟩ :=
    createOrder_ok_inv db user year addr phone notes db2 order h
  obtain ⟨hsum, hall⟩ := buildOrderItems_ok_inv db _ sub oitems hbuild
  refine ⟨⟨cart, hcart, ?_⟩, ?_, ?_, ?_, ?_⟩
  · rw [hitems]
    refine hall.imp (fun it oi hpq => ?_)
    obtain ⟨p, hfp, hact, hle, rfl⟩ := hpq
    refine ⟨p, hfp, rfl, ?_, rfl⟩
    cases hd : p.discountPrice with
    | none =>
      exact Or.inr ⟨rfl, by simp [mkOrderItemOf, unitPriceJS, hd]⟩
    | some d =>
      exact Or.inl ⟨d, rfl, by simp [mkOrderItemOf, unitPriceJS, hd]⟩
  · rw [hsub, hitems, hsum]
  · rw [hship, hsub]
  · exact htax
  · rw [htot, hsub, hship, htax]

/-- Witness for C2 at the sample state: a successful checkout to which
the pricing facts apply. -/
theorem c2_pricing_rules_witness :
    ∃ db2 order, createOrder sampleDB buyer 2025 "X" "Y" none = .ok (db2, order) ∧
      ((∃ cart, activeCartOf sampleDB buyer.id = some cart ∧
        List.Forall₂ (fun (it : CartItem) (oi : OrderItem) => ∃ p : Product,
          findProduct sampleDB it.productId = some p ∧
          oi.quantity = it.quantity ∧
          ((∃ d, p.discountPrice = some d ∧ oi.unitPrice = d) ∨
            (p.discountPrice = none ∧ oi.unitPrice = p.price)) ∧
          oi.totalPrice = oi.unitPrice * (oi.quantity : Rat))
          (itemsOfCart sampleDB cart.id) order.items) ∧
      order.subtotal = (order.items.map (fun oi => oi.totalPrice)).sum ∧
      order.shippingCost = (if 5000 ≤ order.subtotal then (0 : Rat) else 200) ∧
      order.taxAmount = 0 ∧
      order.totalAmount = order.subtotal + order.shippingCost + order.taxAmount) :=
  ⟨_, _, rfl, c2_pricing_rules sampleDB buyer 2025 "X" "Y" none _ _ rfl⟩

/-- C10 counterexample: product 2 has list price 50 and discount price
set to 0; the checkout prices its line at the set zero discount, not at
the 50 list price, and the cart's current price is likewise 0 - the
Decimal object is truthy even at zero, so there is no falsiness
fallback. -/
theorem c10_zero_discount_counterexample :
    findProduct sampleDB 2 = some sampleProduct2 ∧
    sampleProduct2.discountPrice = some 0 ∧
    sampleProduct2.price = 50 ∧
    (createOrder sampleDB buyer 2025 "X" "Y" none).toOption.map
        (fun r => r.2.items.map (fun oi => (oi.productId, oi.unitPrice))) =
      some [(1, 100), (2, 0)] ∧
    (cartItemView sampleDB sampleItem2).map (fun v => v.currentPrice) = some 0 ∧
    ¬((0 : Rat) = 50) := by decide

/-- C10 (amended): for every checkout line whose product has a discount
price equal to zero, the unit price used is that zero discount price,
not the list price: the `||` preference is applied to a Decimal object,
truthy even at zero, so a zero discount price is treated as set (and
the cart's current-price computation behaves the same way). -/
theorem c10_zero_discount_priced_at_zero :
    (∀ (db : DB) (user : User) (year : Nat) (addr phone : String)
      (notes : Option String) (db2 : DB) (order : Order) (cart : Cart),
      createOrder db user year addr phone notes = .ok (db2, order) →
      activeCartOf db user.id = some cart →
      List.Forall₂ (fun (it : CartItem) (oi : OrderItem) =>
        ∀ p : Product, findProduct db it.productId = some p →
          p.discountPrice = some 0 →
          oi.unitPrice = 0 ∧ (p.price ≠ 0 → oi.unitPrice ≠ p.price))
        (itemsOfCart db cart.id) order.items) ∧
    (∀ (db : DB) (ci : CartItem) (p : Product) (v : CartItemView),
      findProduct db ci.productId = some p →
      p.discountPrice = some 0 →
      cartItemView db ci = some v →
      v.currentPrice = 0) := by
  constructor
  · intro db user year addr phone notes db2 order cart h hcart
    obtain ⟨cart', sub, oitems, hcart', hbuild, hitems, _⟩ :=
      createOrder_ok_inv db user year addr phone notes db2 order h
    rw [hcart] at hcart'
    cases hcart'
    obtain ⟨_, hall⟩ := buildOrderItems_ok_inv db _ sub oitems hbuild
    rw [hitems]
    refine hall.imp (fun it oi hpq => ?_)
    obtain ⟨q, hq, _, _, rfl⟩ := hpq
    intro p hfp hd
    rw [hq] at hfp
    obtain rfl : q = p := by injection hfp
    have h0 : (mkOrderItemOf q it).unitPrice = 0 := by
      simp [mkOrderItemOf, unitPriceJS, hd]
    refine ⟨h0, fun hpz => ?_⟩
    rw [h0]
    exact fun hc => hpz hc.symm
  · intro db ci p v hfp hd hview
    rw [cartItemView, hfp] at hview
    cases hview
    simp [unitPriceJS, hd]

/-- Witness for C10 (amended) at the sample state: line 2 (product 2,
discount 0, list price 50) is priced at the zero discount in checkout,
and the cart view's current price is also 0. -/
theorem c10_zero_discount_priced_at_zero_witness :
    (∃ db2 order, createOrder sampleDB buyer 2025 "X" "Y" none = .ok (db2, order) ∧
      List.Forall₂ (fun (it : CartItem) (oi : OrderItem) =>
        ∀ p : Product, findProduct sampleDB it.productId = some p →
          p.discountPrice = some 0 →
          oi.unitPrice = 0 ∧ (p.price ≠ 0 → oi.unitPrice ≠ p.price))
        (itemsOfCart sampleDB sampleCart.id) order.items) ∧
    (∃ v, cartItemView sampleDB sampleItem2 = some v ∧ v.currentPrice = 0) :=
  ⟨⟨_, _, rfl, c10_zero_discount_priced_at_zero.1 sampleDB buyer 2025 "X" "Y" none
      _ _ sampleCart rfl (by decide)⟩,
   ⟨_, rfl, c10_zero_discount_priced_at_zero.2 sampleDB sampleItem2 sampleProduct2 _
      (by decide) (by decide) rfl⟩⟩

/-- C1: a checkout by a user with a non-empty active cart, all products
active and every quantity within stock, returns one new order row whose
item rows copy each product's name, image and unit price at that instant,
decrements each referenced product's stock by the line quantity, appends
one `Order Placed` tracking event, and deletes the cart's item rows and
the cart row, so the cart no longer exists (no active cart is left) and a
subsequent cart fetch creates a fresh empty cart.  All these writes are
the single returned post-state: the model commits them together or, on
error, not at all. -/
theorem c1_checkout_creates_order (db : DB) (user : User) (year : Nat)
    (addr phone : String) (notes : Option String) (cart : Cart)
    (ha : addr ≠ "") (hp : phone ≠ "")
    (hcart : activeCartOf db user.id = some cart)
    (hne : itemsOfCart db cart.id ≠ [])
    (hprod : ∀ it ∈ itemsOfCart db cart.id, ∃ p : Product,
      findProduct db it.productId = some p ∧ p.isActive = true ∧
      (it.quantity : Int) ≤ p.stock)
    (hnd : ((itemsOfCart db cart.id).map (fun i => i.productId)).Nodup)
    (huniq : ∀ c ∈ db.carts, c.userId = user.id → c.isActive = true → c.id = cart.id)
    (hfreshCart : ∀ c ∈ db.carts, c.id ≠ db.nextCartId)
    (hfreshItems : ∀ ci ∈ db.cartItems, ci.cartId ≠ db.nextCartId) :
    ∃ db2 order, createOrder db user year addr phone notes = .ok (db2, order) ∧
      db2.orders = db.orders ++ [order] ∧
      List.Forall₂ (fun (it : CartItem) (oi : OrderItem) => ∃ p : Product,
          findProduct db it.productId = some p ∧ oi.productName = p.name ∧
          oi.productImage = p.images.head? ∧ oi.unitPrice = unitPriceJS p ∧
          oi.quantity = it.quantity) (itemsOfCart db cart.id) order.items ∧
      (∀ it ∈ itemsOfCart db cart.id, ∀ p : Product,
        findProduct db it.productId = some p →
        findProduct db2 it.productId =
          some { p with stock := p.stock - (it.quantity : Int) }) ∧
      db2.tracking = db.tracking ++
        [⟨order.id, "Order Placed", "Your order has been placed successfully", none⟩] ∧
      (∀ c ∈ db2.carts, c.id ≠ cart.id) ∧
      itemsOfCart db2 cart.id = [] ∧
      activeCartOf db2 user.id = none ∧
      (getCart db2 user.id).2.cartId = db.nextCartId ∧
      (getCart db2 user.id).2.cartId ≠ cart.id ∧
      (getCart db2 user.id).2.items = [] := by
  obtain ⟨db2, order, hok⟩ :=
    createOrder_ok_exists db user year addr phone notes cart ha hp hcart hne hprod
  obtain ⟨cart', sub, oitems, hcart', hbuild, hitems, hsub, hship, htax, htot, hnum,
    hid, hstat, huid, horders, hprods, htrack, hcartItems, hcarts, hnext⟩ :=
    createOrder_ok_inv db user year addr phone notes db2 order hok
  rw [hcart] at hcart'
  cases hcart'
  have hcartsNe : ∀ c ∈ db2.carts, c.id ≠ cart.id := by
    intro c hc
    rw [hcarts] at hc
    have := (List.mem_filter.mp hc).2
    simpa using this
  have hnone : activeCartOf db2 user.id = none := by
    refine List.find?_eq_none.mpr (fun c hc => ?_)
    intro hpred
    have hu : c.userId = user.id ∧ c.isActive = true := by
      simpa using hpred
    have hc2 := hc
    rw [hcarts] at hc2
    have hmem := (List.mem_filter.mp hc2).1
    exact hcartsNe c hc (huniq c hmem hu.1 hu.2)
  have hitemsGone : itemsOfCart db2 cart.id = [] := by
    show db2.cartItems.filter (fun ci => ci.cartId == cart.id) = []
    rw [hcartItems]
    refine List.filter_eq_nil_iff.mpr (fun ci hci => ?_)
    have := (List.mem_filter.mp hci).2
    simpa using this
  have hfil2 : db2.cartItems.filter (fun ci => ci.cartId == db2.nextCartId) = [] := by
    rw [hcartItems]
    refine List.filter_eq_nil_iff.mpr (fun ci hci => ?_)
    have hmem := (List.mem_filter.mp hci).1
    have := hfreshItems ci hmem
    rw [hnext]
    simpa using this
  have hcartMem : cart ∈ db.carts := List.mem_of_find?_eq_some hcart
  have hfreshNe : db.nextCartId ≠ cart.id := fun h =>
    hfreshCart cart hcartMem h.symm
  obtain ⟨hsum, hall⟩ := buildOrderItems_ok_inv db _ sub oitems hbuild
  refine ⟨db2, order, hok, horders, ?_, ?_, htrack, hcartsNe, hitemsGone, hnone,
    ?_, ?_, ?_⟩
  · rw [hitems]
    exact hall.imp (fun it oi hpq => by
      obtain ⟨p, hfp, hact, hle, rfl⟩ := hpq
      exact ⟨p, hfp, rfl, rfl, rfl, rfl⟩)
  · intro it hit p hfp
    have hfp' : db.products.find? (fun q => q.id == it.productId) = some p := hfp
    show db2.products.find? (fun q => q.id == it.productId) = _
    rw [hprods, decrementStock_foldl_find? (itemsOfCart db cart.id) db.products it hnd hit,
      hfp']
    rfl
  · simp only [getCart, getOrCreateCart, hnone]
    exact hnext
  · simp only [getCart, getOrCreateCart, hnone]
    rw [hnext]
    exact hfreshNe
  · simp only [getCart, getOrCreateCart, hnone, itemsOfCart]
    rw [hfil2]
    rfl



/-- Witness for C1 at the sample state: user 7 checks out the two-line
cart; the claim's post-state facts hold concretely. -/
theorem c1_checkout_creates_order_witness :
    ∃ db2 order, createOrder sampleDB buyer 2025 "X" "Y" none = .ok (db2, order) ∧
      db2.orders = sampleDB.orders ++ [order] ∧
      List.Forall₂ (fun (it : CartItem) (oi : OrderItem) => ∃ p : Product,
          findProduct sampleDB it.productId = some p ∧ oi.productName = p.name ∧
          oi.productImage = p.images.head? ∧ oi.unitPrice = unitPriceJS p ∧
          oi.quantity = it.quantity)
        (itemsOfCart sampleDB sampleCart.id) order.items ∧
      (∀ it ∈ itemsOfCart sampleDB sampleCart.id, ∀ p : Product,
        findProduct sampleDB it.productId = some p →
        findProduct db2 it.productId =
          some { p with stock := p.stock - (it.quantity : Int) }) ∧
      db2.tracking = sampleDB.tracking ++
        [⟨order.id, "Order Placed", "Your order has been placed successfully", none⟩] ∧
      (∀ c ∈ db2.carts, c.id ≠ sampleCart.id) ∧
      itemsOfCart db2 sampleCart.id = [] ∧
      activeCartOf db2 buyer.id = none ∧
      (getCart db2 buyer.id).2.cartId = sampleDB.nextCartId ∧
      (getCart db2 buyer.id).2.cartId ≠ sampleCart.id ∧
      (getCart db2 buyer.id).2.items = [] :=
  c1_checkout_creates_order sampleDB buyer 2025 "X" "Y" none sampleCart
    (by decide) (by decide) (by decide) (by decide)
    (fun it hmem => by
      have h2 : it ∈ [sampleItem1, sampleItem2] := hmem
      rcases (by simpa using h2 : it = sampleItem1 ∨ it = sampleItem2) with rfl | rfl
      · exact ⟨sampleProduct1, by decide, by decide, by decide⟩
      · exact ⟨sampleProduct2, by decide, by decide, by decide⟩)
    (by decide) (by decide) (by decide) (by decide)

end ResinArt
